import Mathlib

/-!
Shallow embedding of the pagination / list-synchronization core of the
Kurve-Kiosk customer-management frontend
(src/frontend/src/App.tsx, src/frontend/src/components/EditCustomerForm.tsx,
src/frontend/src/components/AddCustomerForm.tsx,
src/frontend/src/services/api.services.ts), together with theorems that
settle the claims of the specification against this embedding.

State fields of `App` become fields of `AppState`; the phases of the async
function `fetchCustomers` (the synchronous prefix up to the `await`, the
`try`/`catch` continuation, and the `finally` timer logic) become explicit
state-transition functions, and overlapping invocations are modelled by an
event-trace machine `World` whose events are the starts of loads and the
settlements of their fetches.
-/

namespace Kiosk

/-- Customer, from `api.services.ts` (`interface Customer`). -/
structure Customer where
  id : Nat
  name : String
  age : Int
  email : String
deriving Repr, DecidableEq

/-- Paginated list response, from `api.services.ts`
(`interface PaginatedCustomersResponse`). -/
structure PaginatedCustomersResponse where
  records : List Customer
  total : Nat
  skip : Nat
  limit : Nat
deriving Repr, DecidableEq

/-- Partial update payload, from `api.services.ts` (`interface CustomerUpdate`):
each field is present only when it is being changed. -/
structure CustomerUpdate where
  name : Option String
  email : Option String
  age : Option Int
deriving Repr, DecidableEq

/-- Creation payload, from `api.services.ts` (`interface CustomerCreate`). -/
structure CustomerCreate where
  name : String
  email : String
  age : Int
deriving Repr, DecidableEq

/-- `const ITEMS_PER_PAGE = 10` in App.tsx. -/
def ITEMS_PER_PAGE : Nat := 10

/-- `const MIN_LOADER_DISPLAY_TIME = 300` in App.tsx. -/
def MIN_LOADER_DISPLAY_TIME : Nat := 300

/-- The React state of `App` (App.tsx lines 17-30) restricted to the fields
the pagination core reads and writes. -/
structure AppState where
  customers : List Customer
  currentPage : Nat
  totalCustomers : Nat
  error : Option String
  isPageLoading : Bool
  isInitialLoadComplete : Bool
deriving Repr, DecidableEq

/-- Synchronous prefix of `fetchCustomers` (App.tsx lines 35-41): clears any
pending loader timer (modelled at the `World` level), sets
`isPageLoading = true` and `error = null`. -/
def fetchStart (s : AppState) : AppState :=
  { s with isPageLoading := true, error := none }

/-- The `try` continuation of `fetchCustomers` on a resolved fetch
(App.tsx lines 44-47): `setCustomers(data.records)`,
`setTotalCustomers(data.total)`, `setCurrentPage(page)`. -/
def fetchSuccess (page : Nat) (data : PaginatedCustomersResponse)
    (s : AppState) : AppState :=
  { s with customers := data.records, totalCustomers := data.total,
           currentPage := page }

/-- The `catch` branch of `fetchCustomers` (App.tsx lines 48-53):
`setError(msg)`, `setCustomers([])`, `setTotalCustomers(0)`. -/
def fetchFailure (msg : String) (s : AppState) : AppState :=
  { s with error := some msg, customers := [], totalCustomers := 0 }

/-- `const totalPages = Math.ceil(totalCustomers / ITEMS_PER_PAGE)`
(App.tsx line 132), on naturals. -/
def totalPages (total : Nat) : Nat :=
  (total + ITEMS_PER_PAGE - 1) / ITEMS_PER_PAGE

/-- `handlePageChange` (App.tsx lines 126-130): triggers
`fetchCustomers(newPage)` only when the guard holds, otherwise does nothing.
The second component is the page of the fetch that was triggered, if any. -/
def handlePageChange (newPage : Nat) (s : AppState) : AppState × Option Nat :=
  if 1 ≤ newPage ∧ newPage ≤ totalPages s.totalCustomers ∧
      newPage ≠ s.currentPage ∧ s.isPageLoading = false then
    (fetchStart s, some newPage)
  else
    (s, none)

/-- `handleCustomerAdded` (App.tsx lines 74-78): computes
`Math.ceil((totalCustomers + 1) / ITEMS_PER_PAGE)` and triggers
`fetchCustomers` on that page. The second component is the page fetched. -/
def handleCustomerAdded (s : AppState) : AppState × Nat :=
  let newTotalPages := (s.totalCustomers + 1 + ITEMS_PER_PAGE - 1) / ITEMS_PER_PAGE
  (fetchStart s, newTotalPages)

/-- The page `confirmDeleteCustomer` reloads after a successful delete
(App.tsx lines 92-95): `currentPage - 1` when the page held exactly one
record and `currentPage > 1`, else `currentPage`. -/
def confirmDeleteTarget (s : AppState) : Nat :=
  if s.customers.length = 1 ∧ 1 < s.currentPage then
    s.currentPage - 1
  else
    s.currentPage

/-- `handleCustomerUpdated` (App.tsx lines 121-124): maps over the in-memory
page replacing the record whose id matches; triggers no fetch (second
component `none`). -/
def handleCustomerUpdated (u : Customer) (s : AppState) :
    AppState × Option Nat :=
  ({ s with customers :=
      s.customers.map (fun c => if c.id = u.id then u else c) }, none)

/-- Result of the awaited `getCustomers` fetch inside `fetchCustomers`:
either a resolved response or a rejection message. -/
inductive FetchResult where
  | ok (data : PaginatedCustomersResponse)
  | err (msg : String)
deriving Repr, DecidableEq

/-- Events of the event-loop model of overlapping `fetchCustomers`
invocations: `start reqId page time` is the synchronous prefix of an
invocation (App.tsx lines 35-41), `settle reqId result time` is its
`try`/`catch`/`finally` continuation running when the fetch settles
(App.tsx lines 44-65). -/
inductive Ev where
  | start (reqId page time : Nat)
  | settle (reqId : Nat) (result : FetchResult) (time : Nat)
deriving Repr, DecidableEq

/-- World state of the event-loop model: the App state, the
`loaderTimerRef` (id of the timer it currently holds), the set of timers
created by `setTimeout` as pairs (creating request id, fire time), the ids
passed to `clearTimeout`, and the registry of started requests as
(reqId, (page, startTime)). A timer identified by the id of the request
whose settlement scheduled it actually fires iff it was scheduled and
never cancelled. -/
structure World where
  app : AppState
  pendingRef : Option Nat
  scheduled : List (Nat × Nat)
  cancelled : List Nat
  reqs : List (Nat × Nat × Nat)
deriving Repr, DecidableEq

/-- One step of the event-loop model, faithful to `fetchCustomers`
(App.tsx lines 34-66):
on `start`, `clearTimeout(loaderTimerRef.current)` cancels whatever timer
the ref holds, loading becomes true and the error is cleared, and the
request is registered with its start time;
on `settle`, the response (or error) is applied unconditionally — the code
compares no request token — and the `finally` block computes
`elapsed = time - startTime`; when `elapsed < MIN_LOADER_DISPLAY_TIME` it
schedules a deferred-finish timer at the remaining delay and stores it in
the ref, otherwise it ends loading immediately. -/
def World.step (w : World) : Ev → World
  | Ev.start reqId page time =>
    { w with
      app := fetchStart w.app,
      cancelled := match w.pendingRef with
        | some tid => tid :: w.cancelled
        | none => w.cancelled,
      reqs := (reqId, page, time) :: w.reqs }
  | Ev.settle reqId result time =>
    match w.reqs.lookup reqId with
    | none => w
    | some (page, startTime) =>
      let app1 := match result with
        | FetchResult.ok data => fetchSuccess page data w.app
        | FetchResult.err msg => fetchFailure msg w.app
      let elapsed := time - startTime
      if elapsed < MIN_LOADER_DISPLAY_TIME then
        { w with
          app := app1,
          pendingRef := some reqId,
          scheduled :=
            (reqId, time + (MIN_LOADER_DISPLAY_TIME - elapsed)) :: w.scheduled }
      else
        { w with
          app := { app1 with isPageLoading := false,
                             isInitialLoadComplete := true } }

/-- Run a trace of events from a world. -/
def World.run (w : World) (evs : List Ev) : World :=
  evs.foldl World.step w

/-- A deferred-finish timer (identified by the request whose settlement
scheduled it) will fire iff it was scheduled and never cancelled. -/
def canFireB (w : World) (reqId : Nat) : Bool :=
  (w.scheduled.any (fun p => p.1 = reqId)) && !(w.cancelled.contains reqId)

/-- The most recently started request, if any (the registry is a cons
list, newest first). -/
def latestReq (w : World) : Option Nat :=
  w.reqs.head?.map Prod.fst

/-- Whitespace in the JavaScript sense relevant to form inputs. -/
def isSpaceChar (c : Char) : Bool :=
  c = ' ' ∨ c = '\t' ∨ c = '\n' ∨ c = '\r'

/-- Drop leading whitespace from a character list. -/
def dropLeadingSpace : List Char → List Char
  | [] => []
  | c :: cs => if isSpaceChar c then dropLeadingSpace cs else c :: cs

/-- `String.prototype.trim`: whitespace removed from both ends. -/
def trimJS (s : String) : String :=
  String.mk ((dropLeadingSpace (dropLeadingSpace s.toList).reverse).reverse)

/-- Longest run of leading decimal digits, accumulated left to right;
`none` when no digit was consumed. Parsing stops at the first non-digit,
as `parseInt` does. -/
def parseDigits : List Char → Option Nat → Option Nat
  | [], acc => acc
  | c :: cs, acc =>
    if c.isDigit then
      parseDigits cs (some (acc.getD 0 * 10 + (c.toNat - 48)))
    else
      acc

/-- `parseInt(s, 10)`: leading whitespace skipped, one optional sign, then
the longest digit run; `none` models `NaN`. -/
def parseIntJS (s : String) : Option Int :=
  match dropLeadingSpace s.toList with
  | '-' :: rest => (parseDigits rest none).map (fun n => -(n : Int))
  | '+' :: rest => (parseDigits rest none).map (fun n => (n : Int))
  | cs => (parseDigits cs none).map (fun n => (n : Int))

/-- Outcome of `EditCustomerForm.handleSubmit`: a local validation error,
the empty-diff early return (no request issued), or a `PUT` request with
the diff payload. -/
inductive EditOutcome where
  | invalid (msg : String)
  | noChanges
  | sendRequest (payload : CustomerUpdate)
deriving Repr, DecidableEq

/-- The `CustomerUpdate` with no fields, i.e. `Object.keys(...).length === 0`. -/
def emptyUpdate : CustomerUpdate := { name := none, email := none, age := none }

/-- `EditCustomerForm.handleSubmit` (EditCustomerForm.tsx lines 131-170):
validation rejects exactly when `parseInt` yields `NaN` or a value `<= 0`;
the payload carries only the fields that differ from the current record;
when the diff is empty no request is sent. -/
def editHandleSubmit (customer : Customer) (name email ageStr : String) :
    EditOutcome :=
  match parseIntJS ageStr with
  | none => EditOutcome.invalid "Please enter a valid age."
  | some ageNumber =>
    if ageNumber ≤ 0 then
      EditOutcome.invalid "Please enter a valid age."
    else
      let upd : CustomerUpdate :=
        { name := if name ≠ customer.name then some name else none,
          email := if email ≠ customer.email then some email else none,
          age := if ageNumber ≠ customer.age then some ageNumber else none }
      if upd = emptyUpdate then
        EditOutcome.noChanges
      else
        EditOutcome.sendRequest upd

/-- Outcome of `AddCustomerForm.handleSubmit`: a local validation error or
a `POST` request with the creation payload. -/
inductive AddOutcome where
  | invalid (msg : String)
  | sendRequest (payload : CustomerCreate)
deriving Repr, DecidableEq

/-- `AddCustomerForm.handleSubmit` (AddCustomerForm.tsx lines 16-50):
rejects blank fields, then rejects an age that is `NaN`, `<= 0` or
`> 120`; otherwise issues the request with trimmed name and email. -/
def addHandleSubmit (name email ageStr : String) : AddOutcome :=
  if trimJS name = "" ∨ trimJS email = "" ∨ trimJS ageStr = "" then
    AddOutcome.invalid "All fields are required."
  else
    match parseIntJS ageStr with
    | none => AddOutcome.invalid "Please enter a valid age (1-120)."
    | some ageNumber =>
      if ageNumber ≤ 0 ∨ 120 < ageNumber then
        AddOutcome.invalid "Please enter a valid age (1-120)."
      else
        AddOutcome.sendRequest
          { name := trimJS name, email := trimJS email, age := ageNumber }

/-- C1, counterexample: two overlapping loads where the superseded first
request settles after the newer second one. The final state shows the first
request data and page, not the data of the most recently initiated load:
the late stale result is applied, not discarded. -/
theorem claim1_counterexample :
    let final := World.run ⟨⟨[], 1, 0, none, false, false⟩, none, [], [], []⟩
      [Ev.start 1 1 0, Ev.start 2 2 10,
       Ev.settle 2 (FetchResult.ok ⟨[⟨2, "B", 21, "bx"⟩], 11, 10, 10⟩) 20,
       Ev.settle 1 (FetchResult.ok ⟨[⟨1, "A", 20, "ax"⟩], 11, 0, 10⟩) 400];
    latestReq final = some 2 ∧
    final.app.customers = [⟨1, "A", 20, "ax"⟩] ∧
    final.app.currentPage = 1 ∧
    ¬(final.app.customers = [⟨2, "B", 21, "bx"⟩] ∧ final.app.currentPage = 2) := by
  decide

/-- C1, amended: `fetchCustomers` compares no request token, so every
settling load applies its records, total and page to the state
unconditionally; the final state reflects whichever request settles last,
which need not be the most recently initiated one. A late stale result is
applied (overwriting newer data) rather than discarded; no crash occurs
since the continuation is a total state update. -/
theorem claim1_settled_result_always_applied :
    ∀ (w : World) (rid page startTime t : Nat)
      (d : PaginatedCustomersResponse),
    w.reqs.lookup rid = some (page, startTime) →
    ((w.step (Ev.settle rid (FetchResult.ok d) t)).app.customers = d.records ∧
     (w.step (Ev.settle rid (FetchResult.ok d) t)).app.totalCustomers = d.total ∧
     (w.step (Ev.settle rid (FetchResult.ok d) t)).app.currentPage = page) := by
  intro w rid page startTime t d h
  simp only [World.step, h]
  split <;> simp [fetchSuccess]

/-- Witness for C1 amended theorem at a concrete world and response. -/
theorem claim1_witness :
    (World.step ⟨⟨[], 1, 0, none, false, false⟩, none, [], [], [(1, 2, 0)]⟩
        (Ev.settle 1 (FetchResult.ok ⟨[⟨1, "A", 20, "ax"⟩], 11, 10, 10⟩) 400)).app.customers
      = [⟨1, "A", 20, "ax"⟩] ∧
    (World.step ⟨⟨[], 1, 0, none, false, false⟩, none, [], [], [(1, 2, 0)]⟩
        (Ev.settle 1 (FetchResult.ok ⟨[⟨1, "A", 20, "ax"⟩], 11, 10, 10⟩) 400)).app.totalCustomers = 11 ∧
    (World.step ⟨⟨[], 1, 0, none, false, false⟩, none, [], [], [(1, 2, 0)]⟩
        (Ev.settle 1 (FetchResult.ok ⟨[⟨1, "A", 20, "ax"⟩], 11, 10, 10⟩) 400)).app.currentPage = 2 :=
  claim1_settled_result_always_applied _ 1 2 0 400 _ (by decide)

/-- C2, counterexample: a state in which a prior load succeeded (one record
shown, total 1, initial load complete). A failing load clears the records
and the total instead of preserving them. -/
theorem claim2_counterexample :
    let s : AppState := ⟨[⟨1, "Ann", 30, "annx"⟩], 1, 1, none, false, true⟩;
    let s2 := fetchFailure "boom" (fetchStart s);
    s2.customers = [] ∧ s2.totalCustomers = 0 ∧
    ¬(s2.customers = s.customers ∧ s2.totalCustomers = s.totalCustomers) := by
  decide

/-- C2, amended: on every failed load the `catch` branch records the error
and unconditionally resets records to empty and the total to zero, whether
or not a prior load ever succeeded; only the page number and the
first-load flag survive. -/
theorem claim2_failure_always_clears :
    ∀ (s : AppState) (msg : String),
    (fetchFailure msg (fetchStart s)).customers = [] ∧
    (fetchFailure msg (fetchStart s)).totalCustomers = 0 ∧
    (fetchFailure msg (fetchStart s)).error = some msg ∧
    (fetchFailure msg (fetchStart s)).currentPage = s.currentPage ∧
    (fetchFailure msg (fetchStart s)).isInitialLoadComplete = s.isInitialLoadComplete := by
  intro s msg
  simp [fetchFailure, fetchStart]

/-- C3, counterexample: with total 25 a load of page 4 returns zero records;
the store accepts it, displaying page 4 with no rows and total 25 — page 3
is not loaded and no clamped retry occurs. -/
theorem claim3_counterexample :
    let s : AppState := ⟨[⟨1, "Ann", 30, "annx"⟩], 3, 25, none, false, true⟩;
    let s2 := fetchSuccess 4 ⟨[], 25, 30, 10⟩ (fetchStart s);
    s2.currentPage = 4 ∧ s2.currentPage ≠ 3 ∧
    s2.customers = [] ∧ s2.totalCustomers = 25 := by
  decide

/-- C3, amended: when a load returns zero records while the reported total
is positive, the store accepts the response as-is: the requested page
number, the empty record list and the returned total all land in the
state; no clamp-and-retry against the true last page exists in the code. -/
theorem claim3_accepts_empty_page :
    ∀ (s : AppState) (page : Nat) (d : PaginatedCustomersResponse),
    d.records = [] → 0 < d.total →
    (fetchSuccess page d (fetchStart s)).currentPage = page ∧
    (fetchSuccess page d (fetchStart s)).customers = [] ∧
    (fetchSuccess page d (fetchStart s)).totalCustomers = d.total := by
  intro s page d hrec htot
  simp [fetchSuccess, fetchStart, hrec]

/-- Witness for C3 amended theorem at the total=25, page-4 scenario. -/
theorem claim3_witness :
    ((0 : Nat) < 25) ∧
    ((fetchSuccess 4 ⟨[], 25, 30, 10⟩
        (fetchStart ⟨[⟨1, "Ann", 30, "annx"⟩], 3, 25, none, false, true⟩)).currentPage = 4 ∧
     (fetchSuccess 4 ⟨[], 25, 30, 10⟩
        (fetchStart ⟨[⟨1, "Ann", 30, "annx"⟩], 3, 25, none, false, true⟩)).customers = [] ∧
     (fetchSuccess 4 ⟨[], 25, 30, 10⟩
        (fetchStart ⟨[⟨1, "Ann", 30, "annx"⟩], 3, 25, none, false, true⟩)).totalCustomers = 25) :=
  ⟨by decide, claim3_accepts_empty_page _ 4 _ (by decide) (by decide)⟩

/-- C4: after a server-confirmed deletion, `confirmDeleteCustomer` reloads
page `currentPage - 1` exactly when the page held one record and
`currentPage > 1`, and reloads `currentPage` in every other case; a
successful reload then makes that page the current page. -/
theorem claim4_delete_reload :
    ∀ s : AppState,
    (s.customers.length = 1 → 1 < s.currentPage →
      confirmDeleteTarget s = s.currentPage - 1) ∧
    (¬(s.customers.length = 1 ∧ 1 < s.currentPage) →
      confirmDeleteTarget s = s.currentPage) ∧
    (∀ d : PaginatedCustomersResponse,
      (fetchSuccess (confirmDeleteTarget s) d (fetchStart s)).currentPage =
        confirmDeleteTarget s) := by
  intro s
  refine ⟨?_, ?_, ?_⟩
  · intro h1 h2
    simp [confirmDeleteTarget, h1, h2]
  · intro h
    simp only [confirmDeleteTarget]
    split
    · exact absurd (by assumption) h
    · rfl
  · intro d
    simp [fetchSuccess, fetchStart]

/-- Witness for C4 at a one-record page 3 and at a two-record page 3. -/
theorem claim4_witness :
    (confirmDeleteTarget ⟨[⟨7, "Ann", 30, "annx"⟩], 3, 21, none, false, true⟩ = 2) ∧
    (confirmDeleteTarget ⟨[⟨7, "Ann", 30, "annx"⟩, ⟨8, "Bob", 40, "bobx"⟩], 3, 22, none, false, true⟩ = 3) :=
  ⟨(claim4_delete_reload _).1 (by decide) (by decide),
   (claim4_delete_reload _).2.1 (by decide)⟩

/-- C5: `handleCustomerAdded` triggers a load of the page with index
`ceil((T+1)/10)` for prior total `T` — characterized arithmetically as the
unique page whose range covers `T+1` — a successful load of it sets the
current page to that index, and the computed index does not depend on the
previously displayed page. -/
theorem claim5_create_jumps_to_last_page :
    ∀ (s : AppState) (d : PaginatedCustomersResponse),
    ITEMS_PER_PAGE * ((handleCustomerAdded s).2 - 1) ≤ s.totalCustomers ∧
    s.totalCustomers + 1 ≤ ITEMS_PER_PAGE * (handleCustomerAdded s).2 ∧
    (fetchSuccess (handleCustomerAdded s).2 d (fetchStart s)).currentPage =
      (handleCustomerAdded s).2 ∧
    (∀ q : Nat, (handleCustomerAdded { s with currentPage := q }).2 =
      (handleCustomerAdded s).2) := by
  intro s d
  refine ⟨?_, ?_, ?_, ?_⟩
  · simp only [handleCustomerAdded, ITEMS_PER_PAGE]
    omega
  · simp only [handleCustomerAdded, ITEMS_PER_PAGE]
    omega
  · simp [fetchSuccess, fetchStart]
  · intro q
    simp [handleCustomerAdded]

/-- C6: `handleCustomerUpdated u` issues no fetch, keeps the total count,
the page number and the page length, and pointwise replaces exactly the
records whose id equals `u.id`, leaving records with other ids unchanged. -/
theorem claim6_update_in_place :
    ∀ (u : Customer) (s : AppState),
    (handleCustomerUpdated u s).2 = none ∧
    ((handleCustomerUpdated u s).1).totalCustomers = s.totalCustomers ∧
    ((handleCustomerUpdated u s).1).currentPage = s.currentPage ∧
    ((handleCustomerUpdated u s).1).customers.length = s.customers.length ∧
    (∀ (i : Nat) (h : i < s.customers.length)
        (h2 : i < ((handleCustomerUpdated u s).1).customers.length),
      ((handleCustomerUpdated u s).1).customers.get ⟨i, h2⟩ =
        (if (s.customers.get ⟨i, h⟩).id = u.id then u
         else s.customers.get ⟨i, h⟩)) := by
  intro u s
  refine ⟨rfl, rfl, rfl, by simp [handleCustomerUpdated], ?_⟩
  intro i h h2
  simp [handleCustomerUpdated, List.getElem_map]

/-- Witness for C6 on a concrete two-record page: the record with the
matching id is replaced in place. -/
theorem claim6_witness :
    ((handleCustomerUpdated ⟨7, "Bea", 31, "beax"⟩
        ⟨[⟨7, "Ann", 30, "annx"⟩, ⟨8, "Bob", 40, "bobx"⟩], 1, 2, none, false, true⟩).1).customers.get
      ⟨0, by decide⟩ = ⟨7, "Bea", 31, "beax"⟩ := by
  have h := (claim6_update_in_place ⟨7, "Bea", 31, "beax"⟩
    ⟨[⟨7, "Ann", 30, "annx"⟩, ⟨8, "Bob", 40, "bobx"⟩], 1, 2, none, false, true⟩).2.2.2.2
    0 (by decide) (by decide)
  simpa using h


/-- C7, counterexample to the clause that only the timer of the most recent
load fires: load 1 starts at 0, load 2 starts at 10, then load 1 settles at
50 and schedules its deferred-finish timer. That timer belongs to the
superseded load 1, is never cancelled, and will fire, although load 2 is
the most recently initiated load. -/
theorem claim7_counterexample :
    let final := World.run ⟨⟨[], 1, 0, none, false, false⟩, none, [], [], []⟩
      [Ev.start 1 1 0, Ev.start 2 2 10,
       Ev.settle 1 (FetchResult.ok ⟨[⟨1, "A", 20, "ax"⟩], 11, 0, 10⟩) 50];
    latestReq final = some 2 ∧ canFireB final 1 = true ∧
    final.cancelled = [] ∧ (1 : Nat) ≠ 2 := by
  decide

/-- C7, amended: a new load cancels whatever timer `loaderTimerRef` holds
at the moment it starts; a load settling with elapsed time below
`MIN_LOADER_DISPLAY_TIME` applies its result immediately, leaves the
loading flag set and schedules a deferred finish at exactly
`startTime + MIN_LOADER_DISPLAY_TIME`; a load settling at or above the
minimum ends the loading state immediately. The clause that only the most
recent load timer can fire does not hold (see the counterexample). -/
theorem claim7_min_duration :
    ∀ (w : World) (tid newId newPage rid page startTime t : Nat)
      (d : PaginatedCustomersResponse),
    (w.pendingRef = some tid →
      tid ∈ (w.step (Ev.start newId newPage t)).cancelled) ∧
    (w.reqs.lookup rid = some (page, startTime) → startTime ≤ t →
      t - startTime < MIN_LOADER_DISPLAY_TIME → w.app.isPageLoading = true →
      ((w.step (Ev.settle rid (FetchResult.ok d) t)).app.customers = d.records ∧
       (w.step (Ev.settle rid (FetchResult.ok d) t)).app.isPageLoading = true ∧
       (rid, startTime + MIN_LOADER_DISPLAY_TIME) ∈
         (w.step (Ev.settle rid (FetchResult.ok d) t)).scheduled)) ∧
    (w.reqs.lookup rid = some (page, startTime) →
      MIN_LOADER_DISPLAY_TIME ≤ t - startTime →
      ((w.step (Ev.settle rid (FetchResult.ok d) t)).app.isPageLoading = false ∧
       (w.step (Ev.settle rid (FetchResult.ok d) t)).app.customers = d.records)) := by
  intro w tid newId newPage rid page startTime t d
  refine ⟨?_, ?_, ?_⟩
  · intro hp
    simp only [World.step, hp]
    exact List.mem_cons_self _ _
  · intro h hle hlt hload
    simp only [World.step, h]
    rw [if_pos hlt]
    refine ⟨by simp [fetchSuccess], by simp [fetchSuccess, hload], ?_⟩
    have he : t + (MIN_LOADER_DISPLAY_TIME - (t - startTime)) =
        startTime + MIN_LOADER_DISPLAY_TIME := by
      simp only [MIN_LOADER_DISPLAY_TIME] at hlt ⊢
      omega
    simp only [he]
    exact List.mem_cons_self _ _
  · intro h hge
    simp only [World.step, h]
    rw [if_neg (by omega)]
    exact ⟨rfl, by simp [fetchSuccess]⟩

/-- Witness for C7 amended theorem: cancellation on start, deferral on a
fast settle, and immediate finish on a slow settle, at one concrete
world. -/
theorem claim7_witness :
    (5 ∈ (World.step
        ⟨⟨[], 1, 0, none, true, false⟩, some 5, [(5, 300)], [], [(1, 2, 0)]⟩
        (Ev.start 9 3 50)).cancelled) ∧
    ((World.step
        ⟨⟨[], 1, 0, none, true, false⟩, some 5, [(5, 300)], [], [(1, 2, 0)]⟩
        (Ev.settle 1 (FetchResult.ok ⟨[], 0, 10, 10⟩) 50)).app.isPageLoading = true) ∧
    ((World.step
        ⟨⟨[], 1, 0, none, true, false⟩, some 5, [(5, 300)], [], [(1, 2, 0)]⟩
        (Ev.settle 1 (FetchResult.ok ⟨[], 0, 10, 10⟩) 400)).app.isPageLoading = false) :=
  ⟨(claim7_min_duration
      ⟨⟨[], 1, 0, none, true, false⟩, some 5, [(5, 300)], [], [(1, 2, 0)]⟩
      5 9 3 1 2 0 50 ⟨[], 0, 10, 10⟩).1 rfl,
   ((claim7_min_duration
      ⟨⟨[], 1, 0, none, true, false⟩, some 5, [(5, 300)], [], [(1, 2, 0)]⟩
      5 9 3 1 2 0 50 ⟨[], 0, 10, 10⟩).2.1 (by decide) (by decide) (by decide) rfl).2.1,
   ((claim7_min_duration
      ⟨⟨[], 1, 0, none, true, false⟩, some 5, [(5, 300)], [], [(1, 2, 0)]⟩
      5 9 3 1 2 0 400 ⟨[], 0, 10, 10⟩).2.2 (by decide) (by decide)).1⟩

/-- C8: when no field differs from the current record (and the parsed age is
the valid current age), `EditCustomerForm.handleSubmit` resolves as the
no-request no-op; and whenever a request is sent, its payload carries a
field exactly when that field differs from the current record. -/
theorem claim8_noop_empty_diff :
    ∀ (cust : Customer) (name email ageStr : String),
    (parseIntJS ageStr = some cust.age → 0 < cust.age → name = cust.name →
      email = cust.email →
      editHandleSubmit cust name email ageStr = EditOutcome.noChanges) ∧
    (∀ u : CustomerUpdate,
      editHandleSubmit cust name email ageStr = EditOutcome.sendRequest u →
      ((u.name = none ∧ name = cust.name) ∨
        (u.name = some name ∧ name ≠ cust.name)) ∧
      ((u.email = none ∧ email = cust.email) ∨
        (u.email = some email ∧ email ≠ cust.email)) ∧
      (u.age = none ∨
        ∃ a : Int, parseIntJS ageStr = some a ∧ u.age = some a ∧ a ≠ cust.age)) := by
  intro cust name email ageStr
  constructor
  · intro h hpos hn he
    subst hn
    subst he
    simp [editHandleSubmit, h, emptyUpdate, show ¬(cust.age ≤ 0) by omega]
  · intro u hu
    simp only [editHandleSubmit] at hu
    split at hu
    · exact absurd hu (by simp)
    · rename_i ageNumber hp
      split at hu
      · exact absurd hu (by simp)
      · rename_i hpos
        rcases ite_eq_iff.mp hu with ⟨h1, h2⟩ | ⟨h1, h2⟩
        · exact absurd h2 (by simp)
        · have hud : u =
              { name := if name ≠ cust.name then some name else none,
                email := if email ≠ cust.email then some email else none,
                age := if ageNumber ≠ cust.age then some ageNumber else none } := by
            injection h2 with h3
            exact h3.symm
          subst hud
          refine ⟨?_, ?_, ?_⟩
          · by_cases hnm : name = cust.name
            · exact Or.inl ⟨by simp [hnm], hnm⟩
            · exact Or.inr ⟨by simp [hnm], hnm⟩
          · by_cases hem : email = cust.email
            · exact Or.inl ⟨by simp [hem], hem⟩
            · exact Or.inr ⟨by simp [hem], hem⟩
          · by_cases ha : ageNumber = cust.age
            · exact Or.inl (by simp [ha])
            · exact Or.inr ⟨ageNumber, hp, by simp [ha], ha⟩

/-- Witness for C8: submitting unchanged fields resolves as the no-op. -/
theorem claim8_witness :
    editHandleSubmit ⟨1, "Ann", 30, "annx"⟩ "Ann" "annx" "30" =
      EditOutcome.noChanges :=
  (claim8_noop_empty_diff ⟨1, "Ann", 30, "annx"⟩ "Ann" "annx" "30").1
    (by decide) (by decide) rfl rfl

/-- C9: `handlePageChange n` triggers a fetch exactly when `1 ≤ n`,
`n ≤ ceil(totalCount/10)`, `n` differs from the current page and no page
load is in flight; in every other case the state is returned unchanged
with no fetch; and any page it does fetch is in range for the current
total. -/
theorem claim9_page_change_guard :
    ∀ (n : Nat) (s : AppState),
    ((handlePageChange n s).2 = some n ↔
      (1 ≤ n ∧ n ≤ totalPages s.totalCustomers ∧ n ≠ s.currentPage ∧
        s.isPageLoading = false)) ∧
    (¬(1 ≤ n ∧ n ≤ totalPages s.totalCustomers ∧ n ≠ s.currentPage ∧
        s.isPageLoading = false) → handlePageChange n s = (s, none)) ∧
    (∀ m : Nat, (handlePageChange n s).2 = some m →
      1 ≤ m ∧ ITEMS_PER_PAGE * (m - 1) < s.totalCustomers) := by
  intro n s
  refine ⟨?_, ?_, ?_⟩
  · simp only [handlePageChange]
    split <;> simp_all
  · intro h
    simp only [handlePageChange]
    rw [if_neg h]
  · intro m hm
    simp only [handlePageChange] at hm
    split at hm
    · rename_i hg
      have hnm : n = m := by simpa using hm
      subst hnm
      have h1 := hg.1
      have h2 := hg.2.1
      simp only [totalPages, ITEMS_PER_PAGE] at h2 ⊢
      omega
    · exact absurd hm (by simp)

/-- Witness for C9: page 0 is ignored with the state unchanged, and a
fetched page is in range. -/
theorem claim9_witness :
    (handlePageChange 0 ⟨[], 1, 25, none, false, true⟩ =
      (⟨[], 1, 25, none, false, true⟩, none)) ∧
    (1 ≤ 2 ∧ ITEMS_PER_PAGE * (2 - 1) < 25) :=
  ⟨(claim9_page_change_guard 0 ⟨[], 1, 25, none, false, true⟩).2.1 (by decide),
   (claim9_page_change_guard 2 ⟨[], 1, 25, none, false, true⟩).2.2 2 (by decide)⟩

/-- C10: the add form sends a request only for ages in [1, 120]; the edit
form rejects a submission exactly when the age is non-numeric or not
strictly positive; and an edit with age 200 (unchanged name and email) is
sent to the server. -/
theorem claim10_age_validation :
    ∀ (name email ageStr : String) (cust : Customer),
    (∀ p : CustomerCreate,
      addHandleSubmit name email ageStr = AddOutcome.sendRequest p →
      1 ≤ p.age ∧ p.age ≤ 120) ∧
    ((∃ msg, editHandleSubmit cust name email ageStr = EditOutcome.invalid msg) ↔
      (parseIntJS ageStr = none ∨
        ∃ a : Int, parseIntJS ageStr = some a ∧ a ≤ 0)) ∧
    (editHandleSubmit ⟨1, "Ann", 30, "annx"⟩ "Ann" "annx" "200" =
      EditOutcome.sendRequest ⟨none, none, some 200⟩) := by
  intro name email ageStr cust
  refine ⟨?_, ?_, by decide⟩
  · intro p hp
    simp only [addHandleSubmit] at hp
    split at hp
    · exact absurd hp (by simp)
    · split at hp
      · exact absurd hp (by simp)
      · rename_i a hpa
        split at hp
        · exact absurd hp (by simp)
        · rename_i hrange
          have hpd : p = { name := trimJS name, email := trimJS email, age := a } := by
            injection hp with h2
            exact h2.symm
          subst hpd
          simp only
          omega
  · constructor
    · rintro ⟨msg, hmsg⟩
      simp only [editHandleSubmit] at hmsg
      split at hmsg
      · rename_i hp
        exact Or.inl hp
      · rename_i a hp
        split at hmsg
        · rename_i ha
          exact Or.inr ⟨a, hp, ha⟩
        · rcases ite_eq_iff.mp hmsg with ⟨h1, h2⟩ | ⟨h1, h2⟩
          · exact absurd h2 (by simp)
          · exact absurd h2 (by simp)
    · intro h
      rcases h with hp | ⟨a, hp, ha⟩
      · exact ⟨"Please enter a valid age.", by simp [editHandleSubmit, hp]⟩
      · exact ⟨"Please enter a valid age.", by simp [editHandleSubmit, hp, ha]⟩

/-- Witness for C10: a valid add-form request implies its age lies in
[1, 120]. -/
theorem claim10_witness :
    1 ≤ (⟨"Bob", "bx", (50 : Int)⟩ : CustomerCreate).age ∧
    (⟨"Bob", "bx", (50 : Int)⟩ : CustomerCreate).age ≤ 120 :=
  (claim10_age_validation "Bob" "bx" "50" ⟨1, "Ann", 30, "annx"⟩).1
    ⟨"Bob", "bx", 50⟩ (by decide)

end Kiosk
